import Mathlib

/-
  Verification development for the matchengine TypeScript SDK
  (request/error-normalization pipeline, lookup sentinels, response
  shaping, configuration normalization).

  The JavaScript source being embedded is the compiled bundle:
  `createConfig`, the error classes (`MatchEngineError` and its
  subclasses), `MatchEngineClient.request`, `MatchEngineClient.handleError`,
  the three lookup methods and `listBookings`.

  Conventions of the shallow embedding:
  * JSON values are the inductive `Json`; JavaScript numbers are modelled
    as `Int` (the claims under study never exercise fractional numbers).
  * A JS error object is the structure `MEError`; the `name` field plays
    the role of the class tag (each error class in the source sets a
    distinct `name` in its constructor and nothing reassigns it, so
    `instanceof C` coincides with `name = "C"` for the leaf classes).
  * The outcome of the underlying `fetch` call is the inductive
    `FetchOutcome`; `request` is the pure classification the JS
    try/catch performs on that outcome.
-/

/-- A JSON value as produced by `response.json()`.  Numbers are modelled
as integers; the claims never depend on fractional numerals. -/
inductive Json where
  | null : Json
  | bool : Bool → Json
  | num : Int → Json
  | str : String → Json
  | arr : List Json → Json
  | obj : List (String × Json) → Json

/-- Is this JSON value the literal `null`? -/
def jsonIsNull : Json → Bool
  | Json.null => true
  | _ => false

/-- First binding of a key in an object's field list (JSON.parse keeps a
single binding per key, so parsed objects never have duplicates). -/
def getField : List (String × Json) → String → Option Json
  | [], _ => none
  | (k, v) :: fs, key => if k = key then some v else getField fs key

/-- JavaScript property access `data.k` on a parsed JSON value: a field of
an object, and `undefined` (here `none`) on arrays, strings, numbers and
booleans.  On `null` the JS expression throws a TypeError; theorems that
quantify over bodies therefore exclude `Json.null`. -/
def jsProp : Json → String → Option Json
  | Json.obj fs, key => getField fs key
  | _, _ => none

/-- The JavaScript `typeof data === "object"` test on a parsed JSON value:
true for objects, arrays and `null`, false for strings, numbers, booleans. -/
def jsTypeIsObject : Json → Bool
  | Json.obj _ => true
  | Json.arr _ => true
  | Json.null => true
  | _ => false

/-- One hexadecimal digit. -/
def hexDigit (n : Nat) : String :=
  if n < 10 then String.singleton (Char.ofNat (48 + n))
  else String.singleton (Char.ofNat (87 + n))

/-- Four-digit hexadecimal rendering used for JSON control-character
escapes. -/
def hex4 (n : Nat) : String :=
  hexDigit (n / 4096 % 16) ++ hexDigit (n / 256 % 16) ++
    hexDigit (n / 16 % 16) ++ hexDigit (n % 16)

/-- JSON.stringify's escaping of one character inside a string literal. -/
def escapeChar (c : Char) : String :=
  if c = '"' then "\\\""
  else if c = '\\' then "\\\\"
  else if c = '\n' then "\\n"
  else if c = '\t' then "\\t"
  else if c = '\r' then "\\r"
  else if c = Char.ofNat 8 then "\\b"
  else if c = Char.ofNat 12 then "\\f"
  else if c.toNat < 32 then "\\u" ++ hex4 c.toNat
  else String.singleton c

/-- JSON.stringify's rendering of a string (quoted, escaped). -/
def quoteJson (s : String) : String :=
  "\"" ++ String.join (s.data.map escapeChar) ++ "\""

mutual

/-- `JSON.stringify` on a parsed JSON value (object fields in insertion
order, which the field list preserves). -/
def stringify : Json → String
  | Json.null => "null"
  | Json.bool true => "true"
  | Json.bool false => "false"
  | Json.num n => toString n
  | Json.str s => quoteJson s
  | Json.arr xs => "[" ++ stringifyElems xs ++ "]"
  | Json.obj fs => "\x7b" ++ stringifyFields fs ++ "\x7d"

/-- Comma-separated serialization of array elements. -/
def stringifyElems : List Json → String
  | [] => ""
  | [x] => stringify x
  | x :: xs => stringify x ++ "," ++ stringifyElems xs

/-- Comma-separated serialization of object fields. -/
def stringifyFields : List (String × Json) → String
  | [] => ""
  | [(k, v)] => quoteJson k ++ ":" ++ stringify v
  | (k, v) :: fs => quoteJson k ++ ":" ++ stringify v ++ "," ++ stringifyFields fs

end

mutual

/-- The JavaScript `String(x)` conversion on a parsed JSON value:
strings unchanged, primitives printed, arrays joined with commas
(`null` elements become empty), plain objects print as
`[object Object]`. -/
def jsToString : Json → String
  | Json.null => "null"
  | Json.bool true => "true"
  | Json.bool false => "false"
  | Json.num n => toString n
  | Json.str s => s
  | Json.arr xs => jsToStringElems xs
  | Json.obj _ => "[object Object]"

/-- `Array.prototype.toString`: elements joined with commas, a `null`
element contributing the empty string. -/
def jsToStringElems : List Json → String
  | [] => ""
  | [Json.null] => ""
  | [x] => jsToString x
  | Json.null :: xs => "," ++ jsToStringElems xs
  | x :: xs => jsToString x ++ "," ++ jsToStringElems xs

end

/-- Lower-casing used to embed `String.prototype.toLowerCase` (the
messages under study are ASCII, where the two agree). -/
def lowerStr (s : String) : String :=
  String.mk (s.data.map Char.toLower)

/-- Is the first list a prefix of the second (character lists)? -/
def isPrefList : List Char → List Char → Bool
  | [], _ => true
  | _ :: _, [] => false
  | a :: p, b :: s => a == b && isPrefList p s

/-- Does `pat` occur as a contiguous sublist of the second argument? -/
def hasSub (pat : List Char) : List Char → Bool
  | [] => pat.isEmpty
  | c :: rest => isPrefList pat (c :: rest) || hasSub pat rest

/-- Embedding of `String.prototype.includes`. -/
def strIncludes (s pat : String) : Bool :=
  hasSub pat.data s.data

/-- A MatchEngine SDK error value.  `name` is the class tag set by the
constructor of the corresponding JS error class; `fieldErrors` is the
extra property of `ValidationError` (never populated by the normalizer). -/
structure MEError where
  name : String
  message : String
  statusCode : Option Nat
  responseData : Option Json
  fieldErrors : Option Json

/-- `new MatchEngineError(message, { statusCode, responseData })`. -/
def mkMatchEngineError (message : String) (statusCode : Option Nat)
    (responseData : Option Json) : MEError :=
  ⟨"MatchEngineError", message, statusCode, responseData, none⟩

/-- `new AuthenticationError(message)`: statusCode 401, no payload. -/
def mkAuthenticationError (message : String) : MEError :=
  ⟨"AuthenticationError", message, some 401, none, none⟩

/-- `new NotFoundError(message)`: statusCode 404, no payload. -/
def mkNotFoundError (message : String) : MEError :=
  ⟨"NotFoundError", message, some 404, none, none⟩

/-- `new ValidationError(message, { responseData })`: statusCode 400,
the supplied payload, and the supplied field errors (the normalizer
passes none). -/
def mkValidationError (message : String) (responseData : Option Json)
    (fieldErrors : Option Json) : MEError :=
  ⟨"ValidationError", message, some 400, responseData, fieldErrors⟩

/-- `new SlotNotAvailableError(message)`: statusCode 400, no payload. -/
def mkSlotNotAvailableError (message : String) : MEError :=
  ⟨"SlotNotAvailableError", message, some 400, none, none⟩

/-- `new UserNotFoundError(message)`: statusCode 404 (the "404 semantic"),
no payload. -/
def mkUserNotFoundError (message : String) : MEError :=
  ⟨"UserNotFoundError", message, some 404, none, none⟩

/-- Message derivation of `handleError` (the chain of `typeof` tests on
`data.error`, `data.detail`, `Array.isArray(data.non_field_errors)`, then
`typeof data === "object"`, else the initial `"Unknown error"`).  For a
`null` body the JS code would already have thrown a TypeError at
`data.error`; see `jsProp`. -/
def deriveMessage (data : Json) : String :=
  match jsProp data "error" with
  | some (Json.str s) => s
  | _ =>
    match jsProp data "detail" with
    | some (Json.str s) => s
    | _ =>
      match jsProp data "non_field_errors" with
      | some (Json.arr (x :: _)) => jsToString x
      | _ =>
        if jsTypeIsObject data then stringify data else "Unknown error"

/-- `MatchEngineClient.handleError(statusCode, data)`: derive the message,
then switch on the status code (401, 404, 400 with its two message
pattern tests, default). -/
def handleError (statusCode : Nat) (data : Json) : MEError :=
  let message := deriveMessage data
  if statusCode = 401 then mkAuthenticationError message
  else if statusCode = 404 then mkNotFoundError message
  else if statusCode = 400 then
    if strIncludes (lowerStr message) "not available" then
      mkSlotNotAvailableError message
    else if strIncludes (lowerStr message) "user" &&
        strIncludes (lowerStr message) "not found" then
      mkUserNotFoundError message
    else
      mkValidationError message (some data) none
  else
    mkMatchEngineError message (some statusCode) (some data)

/-- How the single `fetch` of `MatchEngineClient.request` resolved.
`success` is a 2xx whose body parsed; `successParseFail` a 2xx whose
`response.json()` rejected with an Error carrying the given message;
`httpError` a non-2xx status with the body's parse result (`none` when
`response.json()` rejected, in which case the code substitutes `{}`);
`abortTimeout` the AbortError produced when the timeout timer fired and
aborted the call; `transportError` any other rejection that is an
`Error`; `thrownNonError` a rejection that is not an `Error`. -/
inductive FetchOutcome where
  | success : Json → FetchOutcome
  | successParseFail : String → FetchOutcome
  | httpError : Nat → Option Json → FetchOutcome
  | abortTimeout : FetchOutcome
  | transportError : String → FetchOutcome
  | thrownNonError : FetchOutcome

/-- The result classification of `MatchEngineClient.request`: the body of
its try/catch as a pure function of how the fetch resolved.  A
`MatchEngineError` thrown inside the try block (the `handleError` result)
is re-thrown unchanged by the catch; an AbortError becomes the synthetic
timeout error `MatchEngineError("Request timeout", { statusCode: 408 })`;
any other `Error` is wrapped with its message and no status code; a
non-`Error` throw yields `MatchEngineError("Unknown error")`. -/
def request : FetchOutcome → Except MEError Json
  | FetchOutcome.success body => Except.ok body
  | FetchOutcome.successParseFail msg =>
      Except.error (mkMatchEngineError msg none none)
  | FetchOutcome.httpError status body =>
      Except.error (handleError status (body.getD (Json.obj [])))
  | FetchOutcome.abortTimeout =>
      Except.error (mkMatchEngineError "Request timeout" (some 408) none)
  | FetchOutcome.transportError msg =>
      Except.error (mkMatchEngineError msg none none)
  | FetchOutcome.thrownNonError =>
      Except.error (mkMatchEngineError "Unknown error" none none)

/-- `MatchEngineClient.lookupUser`: await the request, catch exactly the
errors satisfying `instanceof NotFoundError` (the class tag
`"NotFoundError"`) and return `null` for them, re-throw everything else. -/
def lookupUser (o : FetchOutcome) : Except MEError (Option Json) :=
  match request o with
  | Except.ok v => Except.ok (some v)
  | Except.error e =>
      if e.name = "NotFoundError" then Except.ok none else Except.error e

/-- `MatchEngineClient.lookupResource`: same catch pattern as
`lookupUser`. -/
def lookupResource (o : FetchOutcome) : Except MEError (Option Json) :=
  match request o with
  | Except.ok v => Except.ok (some v)
  | Except.error e =>
      if e.name = "NotFoundError" then Except.ok none else Except.error e

/-- `MatchEngineClient.lookupVenue`: same catch pattern as `lookupUser`. -/
def lookupVenue (o : FetchOutcome) : Except MEError (Option Json) :=
  match request o with
  | Except.ok v => Except.ok (some v)
  | Except.error e =>
      if e.name = "NotFoundError" then Except.ok none else Except.error e

/-- The response shaping of `listBookings`: `Array.isArray(response)`
returns it unchanged, otherwise `response.results ?? []` — the `results`
property when present and not null, else the empty array. -/
def listBookingsShape (resp : Json) : Json :=
  match resp with
  | Json.arr xs => Json.arr xs
  | _ =>
    match jsProp resp "results" with
    | some v => if jsonIsNull v then Json.arr [] else v
    | none => Json.arr []

/-- `MatchEngineClient.listBookings`: await the request (errors propagate
unchanged) and shape the response. -/
def listBookings (o : FetchOutcome) : Except MEError Json :=
  match request o with
  | Except.ok resp => Except.ok (listBookingsShape resp)
  | Except.error e => Except.error e

/-- Every other endpoint method of the client (`registerUser`,
`registerResource`, `listResources`, `registerVenue`,
`getVenueWithResources`, `listVenues`, `getVenue`, availability queries,
`createBooking`, `getBooking`, `createPaymentIntent`, `cancelBooking`)
is literally `return this.request(...)` with no catch: its result for a
given fetch outcome is the request classification itself. -/
def directOp (o : FetchOutcome) : Except MEError Json :=
  request o

/-- The message carried by an error result (empty for a success). -/
def resultMessage : Except MEError Json → String
  | Except.error e => e.message
  | Except.ok _ => ""

/-- Whether a request result is a delivered response (a resolved value)
rather than a rejection. -/
def isOkResult : Except MEError Json → Bool
  | Except.ok _ => true
  | Except.error _ => false

/-- Input configuration of the client (`MatchEngineConfig`): the timeout
is optional. -/
structure MatchEngineConfig where
  baseUrl : String
  apiToken : String
  stripePublishableKey : String
  timeoutMs : Option Nat

/-- The normalized configuration (`Required<MatchEngineConfig>`). -/
structure ResolvedConfig where
  baseUrl : String
  apiToken : String
  stripePublishableKey : String
  timeoutMs : Nat

/-- `config.baseUrl.endsWith("/")`. -/
def endsWithSlash (s : String) : Bool :=
  match s.data.getLast? with
  | some c => c == '/'
  | none => false

/-- `s.slice(0, -1)`: the string without its last character. -/
def dropLastChar (s : String) : String :=
  String.mk s.data.dropLast

/-- The input ends with two slashes: it ends with a slash and so does the
string with that slash removed. -/
def endsWithTwoSlashes (s : String) : Bool :=
  endsWithSlash s && endsWithSlash (dropLastChar s)

/-- `createConfig`: strip one trailing slash from the base URL when
present, default the timeout to 30000 ms, pass the other fields through. -/
def createConfig (c : MatchEngineConfig) : ResolvedConfig :=
  ⟨if endsWithSlash c.baseUrl then dropLastChar c.baseUrl else c.baseUrl,
   c.apiToken, c.stripePublishableKey, c.timeoutMs.getD 30000⟩

/-- Claim C1, counterexample: an unparseable (or empty) non-2xx body is
replaced by the empty object, whose derived message is the serialized
text of that object — the two characters brace/brace — and not the
literal "Unknown error" the claim states. -/
theorem c1_unparseable_body_counterexample :
    request (FetchOutcome.httpError 500 none)
      = Except.error (handleError 500 (Json.obj []))
    ∧ resultMessage (request (FetchOutcome.httpError 500 none)) = "\x7b\x7d"
    ∧ (resultMessage (request (FetchOutcome.httpError 500 none))
        == "Unknown error") = false := by
  exact ⟨rfl, by decide, by decide⟩

/-- Claim C1 as amended: message derivation follows first-match
precedence — a string field "error" wins over everything; "detail" comes
next; then the string form of the first element of a non-empty
"non_field_errors" list; otherwise a body that is a JSON object or array
serializes to its JSON text (so the empty object substituted for an
empty or unparseable body yields the serialized empty object), while a
primitive body (string, number, boolean) yields the literal
"Unknown error". -/
theorem c1_message_derivation :
    (∀ (e : String) (rest : List (String × Json)),
      deriveMessage (Json.obj (("error", Json.str e) :: rest)) = e)
    ∧ deriveMessage (Json.obj [("error", Json.str "E"), ("detail", Json.str "D")]) = "E"
    ∧ deriveMessage (Json.obj [("detail", Json.str "D")]) = "D"
    ∧ deriveMessage (Json.obj [("non_field_errors", Json.arr [Json.str "X", Json.str "Y"])]) = "X"
    ∧ deriveMessage (Json.obj [("foo", Json.str "bar")]) = "\x7b\"foo\":\"bar\"\x7d"
    ∧ deriveMessage (Json.obj []) = "\x7b\x7d"
    ∧ deriveMessage (Json.str "oops") = "Unknown error"
    ∧ deriveMessage (Json.num 7) = "Unknown error" := by
  refine ⟨?_, by decide, by decide, by decide, by decide, by decide, by decide, by decide⟩
  intro e rest
  simp [deriveMessage, jsProp, getField]

/-- Claim C2, counterexample: a non-2xx response with status 408 is an
unmapped status for `handleError` — it produces the generic error (class
tag "MatchEngineError") carrying the parsed body as payload and the
body-derived message, which differs from the synthetic timeout error
(message "Request timeout", no payload) the claim's RequestTimeout kind
denotes. -/
theorem c2_408_counterexample :
    (handleError 408 (Json.obj [])).name = "MatchEngineError"
    ∧ (handleError 408 (Json.obj [])).statusCode = some 408
    ∧ (handleError 408 (Json.obj [])).responseData = some (Json.obj [])
    ∧ (handleError 408 (Json.obj [])).message = "\x7b\x7d"
    ∧ (resultMessage (request (FetchOutcome.httpError 408 (some (Json.obj []))))
        == resultMessage (request FetchOutcome.abortTimeout)) = false := by
  exact ⟨rfl, rfl, rfl, by decide, by decide⟩

/-- Claim C2 as amended: the status mapping sends 401 to
AuthenticationFailed and 404 to NotFound (400 has its own
sub-classification, settled by the C3 theorem); every other status —
including a genuine server 408 — yields the generic error carrying
exactly that status code and the parsed body as payload.  The
RequestTimeout error (status 408, message "Request timeout", no payload)
arises only synthetically from the timeout path of `request`, never from
the status mapping.  A `null` body is excluded because the JS code
throws a TypeError on it before classifying. -/
theorem c2_status_mapping (d : Json) (hd : jsonIsNull d = false) :
    (handleError 401 d).name = "AuthenticationError"
    ∧ (handleError 404 d).name = "NotFoundError"
    ∧ (∀ s : Nat, s ≠ 400 → s ≠ 401 → s ≠ 404 →
        handleError s d = mkMatchEngineError (deriveMessage d) (some s) (some d))
    ∧ request FetchOutcome.abortTimeout
        = Except.error (mkMatchEngineError "Request timeout" (some 408) none) := by
  refine ⟨rfl, rfl, ?_, rfl⟩
  intro s h400 h401 h404
  simp [handleError, h400, h401, h404]

/-- Witness for the amended C2 mapping at concrete inputs: 401 with an
empty-object body is classified as AuthenticationError, and the unmapped
status 500 yields the generic error with status 500 and the body
attached. -/
theorem c2_status_mapping_witness :
    (handleError 401 (Json.obj [])).name = "AuthenticationError"
    ∧ handleError 500 (Json.obj [])
        = mkMatchEngineError "\x7b\x7d" (some 500) (some (Json.obj [])) := by
  refine ⟨(c2_status_mapping (Json.obj []) rfl).1, ?_⟩
  have h := (c2_status_mapping (Json.obj []) rfl).2.2.1 500
    (by decide) (by decide) (by decide)
  rw [h]
  rfl

/-- Claim C3 (confirmed): on a 400 response the derived message is
inspected case-insensitively in a fixed order — containing
"not available" yields SlotNotAvailable; otherwise containing both
"user" and "not found" yields UserNotFound; otherwise Validation, which
forwards the raw parsed body as payload and carries no field-level
errors (its fieldErrors component is none). -/
theorem c3_400_classification (d : Json) (hd : jsonIsNull d = false) :
    (strIncludes (lowerStr (deriveMessage d)) "not available" = true →
      handleError 400 d = mkSlotNotAvailableError (deriveMessage d))
    ∧ (strIncludes (lowerStr (deriveMessage d)) "not available" = false →
       strIncludes (lowerStr (deriveMessage d)) "user" = true →
       strIncludes (lowerStr (deriveMessage d)) "not found" = true →
      handleError 400 d = mkUserNotFoundError (deriveMessage d))
    ∧ (strIncludes (lowerStr (deriveMessage d)) "not available" = false →
       (strIncludes (lowerStr (deriveMessage d)) "user" = false ∨
        strIncludes (lowerStr (deriveMessage d)) "not found" = false) →
      handleError 400 d = mkValidationError (deriveMessage d) (some d) none) := by
  refine ⟨?_, ?_, ?_⟩
  · intro h1
    simp [handleError, h1]
  · intro h1 h2 h3
    simp [handleError, h1, h2, h3]
  · intro h1 h2
    rcases h2 with h | h <;> simp [handleError, h1, h]

/-- Witness for the C3 classification at concrete 400 bodies covering
all three branches, including a case-insensitive match. -/
theorem c3_400_classification_witness :
    handleError 400 (Json.obj [("error", Json.str "Slot is NOT Available for booking")])
      = mkSlotNotAvailableError "Slot is NOT Available for booking"
    ∧ handleError 400 (Json.obj [("error", Json.str "User not found for external id")])
      = mkUserNotFoundError "User not found for external id"
    ∧ handleError 400 (Json.obj [("error", Json.str "bad email")])
      = mkValidationError "bad email"
          (some (Json.obj [("error", Json.str "bad email")])) none := by
  refine ⟨?_, ?_, ?_⟩
  · exact (c3_400_classification
      (Json.obj [("error", Json.str "Slot is NOT Available for booking")]) rfl).1
      (by decide)
  · exact (c3_400_classification
      (Json.obj [("error", Json.str "User not found for external id")]) rfl).2.1
      (by decide) (by decide) (by decide)
  · exact (c3_400_classification
      (Json.obj [("error", Json.str "bad email")]) rfl).2.2
      (by decide) (Or.inl (by decide))

/-- Claim C5 (confirmed): when the timeout timer fires it aborts the
fetch, whose AbortError rejection is classified as the synthetic timeout
error — message "Request timeout", status code 408, no payload — and the
call yields that rejection, never a delivered response. -/
theorem c5_timeout_classification :
    request FetchOutcome.abortTimeout
      = Except.error (mkMatchEngineError "Request timeout" (some 408) none)
    ∧ (mkMatchEngineError "Request timeout" (some 408) none).statusCode = some 408
    ∧ (mkMatchEngineError "Request timeout" (some 408) none).responseData = none
    ∧ isOkResult (request FetchOutcome.abortTimeout) = false :=
  ⟨rfl, rfl, rfl, rfl⟩

/-- Claim C6 (confirmed): the three lookups (user, resource, venue)
convert exactly the errors whose class tag is "NotFoundError" — the ones
the 404 status mapping produces — into the absent-value result, and
re-throw every other error unchanged; `listBookings` and every direct
endpoint method (see `directOp`) propagate every error unchanged, so the
lookups are the only absorption sites among the client's operations. -/
theorem c6_lookup_sentinel :
    (∀ (o : FetchOutcome) (e : MEError), request o = Except.error e →
      (e.name = "NotFoundError" →
        lookupUser o = Except.ok none ∧ lookupResource o = Except.ok none ∧
          lookupVenue o = Except.ok none)
      ∧ (e.name ≠ "NotFoundError" →
        lookupUser o = Except.error e ∧ lookupResource o = Except.error e ∧
          lookupVenue o = Except.error e))
    ∧ (∀ (o : FetchOutcome) (e : MEError), request o = Except.error e →
        listBookings o = Except.error e ∧ directOp o = Except.error e) := by
  constructor
  · intro o e h
    constructor
    · intro hn
      exact ⟨by simp [lookupUser, h, hn], by simp [lookupResource, h, hn],
        by simp [lookupVenue, h, hn]⟩
    · intro hn
      exact ⟨by simp [lookupUser, h, hn], by simp [lookupResource, h, hn],
        by simp [lookupVenue, h, hn]⟩
  · intro o e h
    exact ⟨by simp [listBookings, h], by simp [directOp, h]⟩

/-- Witness for C6 at concrete outcomes: a 404 lookup resolves to the
absent value, while a 401 lookup re-throws the authentication error. -/
theorem c6_lookup_sentinel_witness :
    lookupUser (FetchOutcome.httpError 404 none) = Except.ok none
    ∧ lookupUser (FetchOutcome.httpError 401 none)
        = Except.error (handleError 401 (Json.obj [])) := by
  constructor
  · exact ((c6_lookup_sentinel.1 (FetchOutcome.httpError 404 none)
      (handleError 404 (Json.obj [])) rfl).1 rfl).1
  · exact ((c6_lookup_sentinel.1 (FetchOutcome.httpError 401 none)
      (handleError 401 (Json.obj [])) rfl).2 (by decide)).1

/-- Claim C7, counterexample: no response with HTTP status 404 ever makes
the normalizer produce the UserNotFound kind — the 404 arm of
`handleError` unconditionally builds a NotFoundError. -/
theorem c7_404_counterexample :
    ¬ ∃ d : Json, (handleError 404 d).name = "UserNotFoundError" := by
  intro hex
  obtain ⟨d, h⟩ := hex
  have h2 : (handleError 404 d).name = "NotFoundError" := rfl
  rw [h2] at h
  exact absurd h (by decide)

/-- Claim C7 as amended: the 404 status mapping always yields the
NotFound kind; the UserNotFound kind is raised only by the message
pattern match on 400 responses whose derived message contains "user" and
"not found" — and that kind itself carries status code 404 (the "404
semantic"). -/
theorem c7_user_not_found_sources (d : Json) (hd : jsonIsNull d = false) :
    (handleError 404 d).name = "NotFoundError"
    ∧ (handleError 400 (Json.obj [("error",
        Json.str "User not found for external id")])).name = "UserNotFoundError"
    ∧ (mkUserNotFoundError (deriveMessage d)).statusCode = some 404 :=
  ⟨rfl, by decide, rfl⟩

/-- Witness for the amended C7 at a concrete body. -/
theorem c7_user_not_found_sources_witness :
    (handleError 404 (Json.obj [])).name = "NotFoundError" :=
  (c7_user_not_found_sources (Json.obj []) rfl).1

/-- Claim C8 (confirmed): `listBookings` returns a flat-list response
unchanged, reduces a paginated envelope to its (non-null) `results`
field, and yields the empty list when `results` is missing; the shaping
applies to the successfully parsed response while errors pass through. -/
theorem c8_list_bookings_normalization :
    (∀ xs : List Json, listBookingsShape (Json.arr xs) = Json.arr xs)
    ∧ (∀ (fs : List (String × Json)) (v : Json), getField fs "results" = some v →
        jsonIsNull v = false → listBookingsShape (Json.obj fs) = v)
    ∧ (∀ fs : List (String × Json), getField fs "results" = none →
        listBookingsShape (Json.obj fs) = Json.arr [])
    ∧ (∀ (o : FetchOutcome) (resp : Json), request o = Except.ok resp →
        listBookings o = Except.ok (listBookingsShape resp)) := by
  refine ⟨fun xs => rfl, ?_, ?_, ?_⟩
  · intro fs v h hv
    simp [listBookingsShape, jsProp, h, hv]
  · intro fs h
    simp [listBookingsShape, jsProp, h]
  · intro o resp h
    simp [listBookings, h]

/-- Witness for C8 at concrete responses: an envelope with results, an
envelope without results, and a flat list arriving through the full
request pipeline. -/
theorem c8_list_bookings_normalization_witness :
    listBookingsShape (Json.obj [("results", Json.arr [Json.num 1])])
      = Json.arr [Json.num 1]
    ∧ listBookingsShape (Json.obj [("count", Json.num 0)]) = Json.arr []
    ∧ listBookings (FetchOutcome.success (Json.arr [Json.num 1]))
        = Except.ok (Json.arr [Json.num 1]) := by
  refine ⟨?_, ?_, ?_⟩
  · exact c8_list_bookings_normalization.2.1 [("results", Json.arr [Json.num 1])]
      (Json.arr [Json.num 1]) rfl rfl
  · exact c8_list_bookings_normalization.2.2.1 [("count", Json.num 0)] rfl
  · exact c8_list_bookings_normalization.2.2.2
      (FetchOutcome.success (Json.arr [Json.num 1])) (Json.arr [Json.num 1]) rfl

/-- Claim C9, counterexample: only one trailing slash is stripped, so a
base address ending in two slashes is stored still ending in a slash —
the stored base address can end with "/". -/
theorem c9_double_slash_counterexample :
    (createConfig ⟨"https://x//", "t", "k", none⟩).baseUrl = "https://x/"
    ∧ endsWithSlash (createConfig ⟨"https://x//", "t", "k", none⟩).baseUrl = true :=
  ⟨by decide, by decide⟩

/-- Claim C9 as amended: `createConfig` strips exactly one trailing slash
when the base address ends with one (so the stored address ends with "/"
only when the input ended with at least two), defaults the timeout to
30000 ms when absent, keeps a supplied timeout, and passes the token and
publishable key through unchanged. -/
theorem c9_config_normalization (c : MatchEngineConfig) :
    ((createConfig c).baseUrl
        = if endsWithSlash c.baseUrl then dropLastChar c.baseUrl else c.baseUrl)
    ∧ (endsWithTwoSlashes c.baseUrl = false →
        endsWithSlash (createConfig c).baseUrl = false)
    ∧ (createConfig c).apiToken = c.apiToken
    ∧ (createConfig c).stripePublishableKey = c.stripePublishableKey
    ∧ (c.timeoutMs = none → (createConfig c).timeoutMs = 30000)
    ∧ (∀ t : Nat, c.timeoutMs = some t → (createConfig c).timeoutMs = t) := by
  refine ⟨rfl, ?_, rfl, rfl, ?_, ?_⟩
  · intro h
    unfold endsWithTwoSlashes at h
    cases hs : endsWithSlash c.baseUrl with
    | false => simpa [createConfig, hs] using hs
    | true =>
      rw [hs] at h
      simp at h
      simpa [createConfig, hs] using h
  · intro h
    simp [createConfig, h]
  · intro t h
    simp [createConfig, h]

/-- Witness for the amended C9: a single-trailing-slash input is stored
without a trailing slash, and an absent timeout defaults to 30000. -/
theorem c9_config_normalization_witness :
    endsWithSlash (createConfig ⟨"https://a/", "t", "k", none⟩).baseUrl = false
    ∧ (createConfig ⟨"https://a/", "t", "k", none⟩).timeoutMs = 30000 :=
  ⟨(c9_config_normalization ⟨"https://a/", "t", "k", none⟩).2.1 (by decide),
   (c9_config_normalization ⟨"https://a/", "t", "k", none⟩).2.2.2.2.1 rfl⟩

/-- Claim C10 (confirmed): a 2xx response whose body fails to parse as
JSON does not resolve to a success — the parse failure's Error is caught
and re-thrown as a base MatchEngineError wrapping its message, with no
status code, no payload and no kind-specific classification. -/
theorem c10_2xx_parse_failure (msg : String) :
    request (FetchOutcome.successParseFail msg)
      = Except.error (mkMatchEngineError msg none none)
    ∧ (mkMatchEngineError msg none none).name = "MatchEngineError"
    ∧ (mkMatchEngineError msg none none).statusCode = none
    ∧ (mkMatchEngineError msg none none).responseData = none
    ∧ isOkResult (request (FetchOutcome.successParseFail msg)) = false :=
  ⟨rfl, rfl, rfl, rfl, rfl⟩
